import Mathlib

/-!
# Verification of the obiwan measurement-set assembly engine

Shallow embedding of the segmentation core (`src/obiwan/repository.py`) and the
resumable task ledger (`src/obiwan/log.py`) of the obiwan lidar-archive tool,
together with proofs settling the specification claims about them.

Modelling conventions:
* naive timestamps (`datetime`) are integers counting seconds; all the code
  under scrutiny only ever subtracts them (`total_seconds()`) or compares them,
  and timestamps of real files are nonnegative epoch values;
* `float` channel resolutions only ever get compared for equality, so they are
  modelled as integers;
* file paths are split into the containing folder (the code always works with
  `os.path.abspath(os.path.dirname(path))`) and the file name;
* Python dictionaries become insertion-ordered association lists.
-/

namespace Obiwan

/-- File formats recognised by the archive (`obiwan/data/types.py`). -/
inductive FileType where
  | UNKNOWN
  | LICEL_V1
  | LICEL_V2
deriving DecidableEq, Inhabited

/-- One lidar system channel (`ChannelInfo` in `obiwan/data/types.py`).
`number_of_shots` is kept even though channel equality ignores it. -/
structure ChannelInfo where
  name : String
  resolution : Int
  wavelength : Int
  laser_used : String
  adcbits : Int
  analog : Bool
  active : Bool
  number_of_shots : Int
deriving DecidableEq, Inhabited

/-- `ChannelInfo.Equals`: structural equality on name, resolution, laser id,
ADC bits, analog flag and active flag; wavelength and shot count are not
compared (`obiwan/data/types.py`). -/
def ChannelInfo.Equals (a b : ChannelInfo) : Bool :=
  a.name == b.name && a.resolution == b.resolution && a.laser_used == b.laser_used &&
    a.adcbits == b.adcbits && a.analog == b.analog && a.active == b.active

/-- Metadata of one raw file (`FileInfo` in `obiwan/data/types.py`).
`custom_field` models `extra.get("custom_field", "")`, the only entry of the
extra-attributes map the segmentation core ever reads (Licel V2 reader). -/
structure FileInfo where
  start_time : Int
  end_time : Int
  location : String
  channels : List ChannelInfo
  custom_field : String
deriving DecidableEq, Inhabited

/-- A recognised measurement file (`MeasurementFile` in `repository.py`):
its resolved type, its metadata, and its path split into folder and name. -/
structure MeasurementFile where
  folder : String
  filename : String
  info : FileInfo
  type : FileType
deriving DecidableEq, Inhabited

def MeasurementFile.StartDateTime (m : MeasurementFile) : Int := m.info.start_time

def MeasurementFile.EndDateTime (m : MeasurementFile) : Int := m.info.end_time

def MeasurementFile.Site (m : MeasurementFile) : String := m.info.location

def MeasurementFile.Type (m : MeasurementFile) : FileType := m.type

/-- Reader dispatch for `has_identifier_in_list`: the Licel V1 reader tests the
location header, the Licel V2 reader additionally tests the custom field, and
an unknown type has no parser (the `except` in `MeasurementFile.IsDark`
turns the resulting error into `False`). -/
def hasIdentifierInList (m : MeasurementFile) (identifiers : List String) : Bool :=
  match m.type with
  | FileType.LICEL_V1 => identifiers.contains m.info.location
  | FileType.LICEL_V2 =>
      identifiers.contains m.info.location || identifiers.contains m.info.custom_field
  | FileType.UNKNOWN => false

/-- `MeasurementFile.IsDark`: the file is a dark measurement when the parser
matches one of the dark identifiers (`repository.py`). -/
def MeasurementFile.IsDark (m : MeasurementFile) (dark_identifiers : List String) : Bool :=
  hasIdentifierInList m dark_identifiers

/-- Remove the first channel of the list that `Equals` the given channel,
mirroring the `found`/`remove`/`break` sequence of `HasSameChannelsAs`.
Returns `none` when no channel matches. -/
def removeFirstEqual (c : ChannelInfo) : List ChannelInfo → Option (List ChannelInfo)
  | [] => none
  | x :: xs =>
      if c.Equals x then some xs
      else (removeFirstEqual c xs).map (fun r => x :: r)

/-- Successively match every channel of the first list against the remaining
channels of the second list, as the loop of `HasSameChannelsAs` does. -/
def matchChannels : List ChannelInfo → List ChannelInfo → Option (List ChannelInfo)
  | [], other => some other
  | c :: cs, other =>
      match removeFirstEqual c other with
      | none => none
      | some rest => matchChannels cs rest

/-- `MeasurementFile.HasSameChannelsAs` (`repository.py`): equal channel-list
cardinality plus a perfect matching under `ChannelInfo.Equals`, with a final
check that no channel of the other file is left over. -/
def MeasurementFile.HasSameChannelsAs (a b : MeasurementFile) : Bool :=
  if a.info.channels.length != b.info.channels.length then false
  else
    match matchChannels a.info.channels b.info.channels with
    | none => false
    | some leftover => leftover.length == 0

/-- The start-time deduplication loop of `MeasurementSet.__init__`: a file is
kept when its start time has not been seen yet, and its start time is then
added to the seen set. -/
def dedupByStartAux (seen : List Int) : List MeasurementFile → List MeasurementFile
  | [] => []
  | f :: fs =>
      if seen.contains f.StartDateTime then dedupByStartAux seen fs
      else f :: dedupByStartAux (f.StartDateTime :: seen) fs

/-- Deduplicate a file list by start time, keeping the first file carrying each
distinct start time (the `start_times_seen` loop of `MeasurementSet.__init__`). -/
def dedupByStart (fs : List MeasurementFile) : List MeasurementFile :=
  dedupByStartAux [] fs

/-- A continuous measurement set (`MeasurementSet` in `repository.py`). -/
structure MeasurementSet where
  dark_files : List MeasurementFile
  data_files : List MeasurementFile
  number : Int
deriving DecidableEq, Inhabited

/-- `MeasurementSet.__init__`: both file lists are deduplicated by start time
before being stored. -/
def MeasurementSet.make (dark data : List MeasurementFile) (number : Int) : MeasurementSet :=
  { dark_files := dedupByStart dark
    data_files := dedupByStart data
    number := number }

def MeasurementSet.DarkFiles (s : MeasurementSet) : List MeasurementFile := s.dark_files

def MeasurementSet.DataFiles (s : MeasurementSet) : List MeasurementFile := s.data_files

/-- The calendar date of a timestamp (`datetime.date()`), as the day number. -/
def dateOf (t : Int) : Int := t / 86400

/-- Left-pad a numeral with zeroes ("%04d" in `NumberAsString`). -/
def padToFour (s : String) : String :=
  String.mk (List.replicate (4 - s.length) '0') ++ s

/-- `MeasurementSet.NumberAsString`: the sequence number, zero-padded to four
characters. -/
def MeasurementSet.NumberAsString (s : MeasurementSet) : String :=
  padToFour (toString s.number)

/-- `MeasurementSet.Id`: identity string derived from the first data file's
calendar date and the sequence number; the catch-all branch yields
`UNKNOWN_MEASUREMENT` when there is no data file. The `%Y%m%d` rendering is
abstracted as the decimal day number, an injective function of the date. -/
def MeasurementSet.Id (s : MeasurementSet) : String :=
  match s.data_files.head? with
  | none => "UNKNOWN_MEASUREMENT"
  | some f => toString (dateOf f.StartDateTime) ++ "_" ++ s.NumberAsString

/-- Chunk-alignment policies (`AlignmentType` in `repository.py`). -/
inductive AlignmentType where
  | NONE
  | SHARP_HOUR
  | SHARP_HOUR_STRICT
  | HALF_HOUR
  | HALF_HOUR_STRICT
deriving DecidableEq, Inhabited

/-- `AlignmentType.minute`: the minute of the hour to align to. -/
def AlignmentType.minute : AlignmentType → Int
  | AlignmentType.HALF_HOUR => 30
  | AlignmentType.HALF_HOUR_STRICT => 30
  | _ => 0

/-- `AlignmentType.is_strict`: strict variants do not glue leading/trailing data. -/
def AlignmentType.is_strict : AlignmentType → Bool
  | AlignmentType.SHARP_HOUR_STRICT => true
  | AlignmentType.HALF_HOUR_STRICT => true
  | _ => false

/-- Scan direction for `SplitByLength` (`SplitStart` in `repository.py`). -/
inductive SplitStart where
  | START
  | END
deriving DecidableEq, Inhabited

/-- The scan loop of `SplitByLength`. State: `last_end` is the end time of the
very last input file, `segment_start` the start time of the currently open
segment, `segment` its files so far; the argument list is the part of the
input not visited yet (`measurements[index:]` starts at its head). After a
glue the Python code breaks with `segment = []`, so the closing
`len(segment) > 0` emission only applies when the loop runs to completion. -/
def splitByLengthAux (min_length max_length last_end : Int) (allow_glue : Bool)
    (segment_start : Int) (segment : List MeasurementFile) :
    List MeasurementFile → List (List MeasurementFile)
  | [] =>
      match segment.head?, segment.getLast? with
      | some h, some l =>
          if l.EndDateTime - h.StartDateTime > min_length then [segment] else []
      | _, _ => []
  | cur :: rest =>
      if last_end - cur.StartDateTime < min_length ∧
          last_end - segment_start > min_length ∧ allow_glue = true then
        [segment ++ cur :: rest]
      else if cur.EndDateTime - segment_start > max_length then
        segment ::
          splitByLengthAux min_length max_length last_end allow_glue
            cur.StartDateTime [cur] rest
      else
        splitByLengthAux min_length max_length last_end allow_glue
          segment_start (segment ++ [cur]) rest

/-- `Lidarchive.SplitByLength` (`repository.py`). The `start` parameter only
feeds the `index_generator` variable, which the loop never reads (it iterates
`range(1, len(measurements))` regardless), so it does not influence the
result. -/
def SplitByLength (measurements : List MeasurementFile) (min_length max_length : Int)
    (start : SplitStart) (allow_glue : Bool) : List (List MeasurementFile) :=
  match measurements with
  | [] => []
  | m0 :: rest =>
      splitByLengthAux min_length max_length
        ((measurements.getLastD default).EndDateTime) allow_glue
        m0.StartDateTime [m0] rest

/-- The minute-of-the-hour of a timestamp (`datetime.minute`); timestamps of
real files are nonnegative. -/
def minuteOf (t : Int) : Int := (t / 60) % 60

/-- The split-marker scan of `SplitByTime`: walk the files keeping the latched
`last_time_difference` (initially 60), and record each index where the
difference to the minute marker crosses to `≤ 0` while the latch is positive;
the latch is reset to -99 at a split. -/
def splitIndexesAux (minute_marker : Int) (last_time_difference : Int) (index : Nat) :
    List MeasurementFile → List Nat
  | [] => []
  | m :: rest =>
      let time_difference := minute_marker - minuteOf m.StartDateTime
      if time_difference ≤ 0 ∧ last_time_difference > 0 then
        index :: splitIndexesAux minute_marker (-99) (index + 1) rest
      else
        splitIndexesAux minute_marker time_difference (index + 1) rest

/-- `Lidarchive.SplitByTime` (`repository.py`): align chunk boundaries to the
minute marker of the alignment type, split every aligned slice by length, and
glue or discard the leading and trailing remainders. The final
`for index, set in enumerate(segments)` loop of the source only computes an
unused local and is omitted. -/
def SplitByTime (measurements : List MeasurementFile) (min_length max_length : Int)
    (alignment_type : AlignmentType) : List (List MeasurementFile) :=
  if measurements.length < 1 then []
  else if alignment_type = AlignmentType.NONE then
    SplitByLength measurements min_length max_length SplitStart.START true
  else
    let minute_marker := alignment_type.minute
    let split_indexes := splitIndexesAux minute_marker 60 0 measurements
    if split_indexes.length < 1 then
      SplitByLength measurements min_length max_length SplitStart.START true
    else
      let splits := (List.range (split_indexes.length - 1)).map (fun i =>
        let start_index := split_indexes.getD i 0
        let end_index := split_indexes.getD (i + 1) 0
        (measurements.drop start_index).take (end_index - start_index))
      let segments := (splits.map (fun split =>
        SplitByLength split min_length max_length SplitStart.START true)).flatten
      let first_index := split_indexes.getD 0 0
      let segments :=
        if first_index ≠ 0 then
          let leading_data := measurements.take first_index
          if leading_data.length ≠ 0 then
            let leading_length := (leading_data.getLastD default).EndDateTime -
              (leading_data.headD default).StartDateTime
            if leading_length < min_length then
              if alignment_type.is_strict = false then
                match segments with
                | [] => SplitByLength leading_data min_length max_length SplitStart.START true
                | s0 :: srest => (leading_data ++ s0) :: srest
              else segments
            else
              SplitByLength leading_data min_length max_length SplitStart.START
                (!alignment_type.is_strict) ++ segments
          else segments
        else segments
      let trailing_data := measurements.drop (split_indexes.getD (split_indexes.length - 1) 0)
      if trailing_data.length ≠ 0 then
        let trailing_length := (trailing_data.getLastD default).EndDateTime -
          (trailing_data.headD default).StartDateTime
        if trailing_length < min_length then
          if alignment_type.is_strict = false then
            match segments with
            | [] => SplitByLength trailing_data min_length max_length SplitStart.START true
            | _ => segments.dropLast ++ [segments.getLastD [] ++ trailing_data]
          else segments
        else
          segments ++ SplitByLength trailing_data min_length max_length SplitStart.END
            (!alignment_type.is_strict)
      else segments

/-- First-seen-order distinct keys, mirroring insertion-ordered dictionary
keys (`measurements_by_folder` in `SplitMeasurements`). -/
def uniqueKeysAux (seen : List String) : List String → List String
  | [] => []
  | k :: ks =>
      if seen.contains k then uniqueKeysAux seen ks
      else k :: uniqueKeysAux (k :: seen) ks

/-- The folder partition of `SplitMeasurements`: files are grouped by the
absolute directory of their path, groups ordered by first appearance, each
group keeping the relative file order. -/
def groupByFolder (measurements : List MeasurementFile) : List (List MeasurementFile) :=
  (uniqueKeysAux [] (measurements.map (fun m => m.folder))).map (fun f =>
    measurements.filter (fun m => m.folder == f))

/-- The gap/location/system scan of `SplitMeasurements` (lines 692-720 of
`repository.py`). `prev` is the previous file (`split[measurement_index - 1]`),
`last_measurement` the file the current run was (re)started from, `cset` the
current run. A new run starts when the time gap exceeds `max_gap`, when the
site string changes (if `same_location`), or when the channel configuration
differs from `last_measurement` (if `same_system`). -/
def gapScanAux (max_gap : Int) (same_location same_system : Bool)
    (prev last_measurement : MeasurementFile) (cset : List MeasurementFile) :
    List MeasurementFile → List (List MeasurementFile)
  | [] => if cset.length > 0 then [cset] else []
  | cur :: rest =>
      if (cur.StartDateTime - prev.EndDateTime > max_gap) ∨
          (same_location = true ∧ prev.Site ≠ cur.Site) ∨
          (same_system = true ∧ cur.HasSameChannelsAs last_measurement = false) then
        cset :: gapScanAux max_gap same_location same_system cur cur [cur] rest
      else
        gapScanAux max_gap same_location same_system cur last_measurement
          (cset ++ [cur]) rest

/-- Run the gap scan on one partition; an empty partition contributes nothing
(`if len(split) < 1: continue`). -/
def gapScan (max_gap : Int) (same_location same_system : Bool) :
    List MeasurementFile → List (List MeasurementFile)
  | [] => []
  | m :: rest => gapScanAux max_gap same_location same_system m m [m] rest

/-- `Lidarchive.SplitMeasurements` (`repository.py`).

The Python source builds `split_measurements` inside `if same_type:` with a
`for split in folder_split_measurements: ... else: split_measurements =
folder_split_measurements`. That `else` belongs to the `for` loop, and the
loop contains no `break`, so the `else` branch always runs after the loop and
rebinds `split_measurements` to the folder partition, discarding the per-type
partition just built. When `same_type` is false the whole block is skipped and
`split_measurements` keeps its initial value `[]`. The embedding reproduces
exactly these final values. -/
def SplitMeasurements (measurements : List MeasurementFile)
    (max_gap min_length max_length : Int) (alignment_type : AlignmentType)
    (same_location same_type same_system same_folder : Bool) :
    List (List MeasurementFile) :=
  if measurements.length < 1 then []
  else
    let folder_split_measurements :=
      if same_folder then groupByFolder measurements else [measurements]
    let split_measurements :=
      if same_type then folder_split_measurements else []
    let distinct_sets :=
      (split_measurements.map (gapScan max_gap same_location same_system)).flatten
    (distinct_sets.map (fun s => SplitByTime s min_length max_length alignment_type)).flatten

/-- The search loop of `ClosestDarkSegment`. The source assigns
`dark_start = data_segment[0].StartDateTime()` and
`dark_end = data_end = data_segment[0].EndDateTime()`, i.e. both bounds of the
candidate dark segment are (mistakenly) read from the data segment itself, so
for a well-formed data file (start ≤ end) neither `dark_end < data_start` nor
`dark_start > data_end` can hold and the overlap branch returns the candidate
immediately. The result is `Sum.inl seg` for the early `return dark_segment`,
and `Sum.inr best` when the loop finishes. -/
def closestDarkAux (data_first : MeasurementFile) (type : Option FileType) :
    List (List MeasurementFile) → Option Int → Option Nat → Nat →
      Sum (List MeasurementFile) (Option Nat)
  | [], _, best, _ => Sum.inr best
  | dark_segment :: rest, closest, best, index =>
      match dark_segment.head? with
      | none =>
          -- the source would raise IndexError here; dark segments produced by
          -- the splitter are never empty, we skip to stay total
          closestDarkAux data_first type rest closest best (index + 1)
      | some d0 =>
          if d0.Type ≠ type.getD d0.Type then
            closestDarkAux data_first type rest closest best (index + 1)
          else if d0.HasSameChannelsAs data_first = false then
            closestDarkAux data_first type rest closest best (index + 1)
          else
            let data_start := data_first.StartDateTime
            let data_end := data_first.EndDateTime
            let dark_start := data_start
            let dark_end := data_end
            if dark_end < data_start then
              let time_gap := data_start - dark_end
              match closest with
              | none => closestDarkAux data_first type rest (some time_gap) (some index) (index + 1)
              | some c =>
                  if time_gap < c then
                    closestDarkAux data_first type rest (some time_gap) (some index) (index + 1)
                  else
                    closestDarkAux data_first type rest closest best (index + 1)
            else if dark_start > data_end then
              let time_gap := dark_start - data_end
              match closest with
              | none => closestDarkAux data_first type rest (some time_gap) (some index) (index + 1)
              | some c =>
                  if time_gap < c then
                    closestDarkAux data_first type rest (some time_gap) (some index) (index + 1)
                  else
                    closestDarkAux data_first type rest closest best (index + 1)
            else
              Sum.inl dark_segment

/-- `Lidarchive.ClosestDarkSegment` (`repository.py`). After a completed loop
the source returns `dark_segments[index]`, where `index` is the leftover loop
variable (the last index), not `best_dark_segment`. -/
def ClosestDarkSegment (data_segment : List MeasurementFile)
    (dark_segments : List (List MeasurementFile)) (type : Option FileType) :
    List MeasurementFile :=
  match data_segment.head? with
  | none => []
  | some d0 =>
      match closestDarkAux d0 type dark_segments none none 0 with
      | Sum.inl seg => seg
      | Sum.inr none => []
      | Sum.inr (some _) => dark_segments.getD (dark_segments.length - 1) []

/-- `Lidarchive.ContinuousDarkMeasurements`: gap-split the dark-tagged files;
all of `same_location`, `same_type`, `same_system` are passed as true and
`same_folder` keeps its default true. -/
def ContinuousDarkMeasurements (measurements : List MeasurementFile)
    (dark_identifiers : List String) (max_gap min_length max_length : Int)
    (alignment_type : AlignmentType) : List (List MeasurementFile) :=
  SplitMeasurements (measurements.filter (fun m => m.IsDark dark_identifiers))
    max_gap min_length max_length alignment_type true true true true

/-- `Lidarchive.ContinuousDataMeasurements`: gap-split the non-dark files whose
site is a recognised measurement location. -/
def ContinuousDataMeasurements (measurements : List MeasurementFile)
    (dark_identifiers measurement_identifiers : List String)
    (max_gap min_length max_length : Int) (alignment_type : AlignmentType) :
    List (List MeasurementFile) :=
  SplitMeasurements
    (measurements.filter (fun m =>
      m.IsDark dark_identifiers = false && measurement_identifiers.contains m.Site))
    max_gap min_length max_length alignment_type true true true true

/-- Stable insertion into an ascending list: the new element goes after every
element whose key is less than or equal to its own. -/
def insertByStart (x : List MeasurementFile) :
    List (List MeasurementFile) → List (List MeasurementFile)
  | [] => [x]
  | y :: ys =>
      if (y.headD default).StartDateTime ≤ (x.headD default).StartDateTime then
        y :: insertByStart x ys
      else
        x :: y :: ys

/-- Stable ascending sort by the first file's start time, modelling
`gapped_data_segments.sort(key=lambda x: x[0].StartDateTime())` (Python's sort
is stable and ascending; folding stable insertions from the left preserves the
original order of equal keys exactly as the source sort does). -/
def sortSegmentsByStart (segments : List (List MeasurementFile)) :
    List (List MeasurementFile) :=
  segments.foldl (fun acc x => insertByStart x acc) []

/-- One step of the sequence-number bookkeeping of
`ComputeContinuousMeasurements`: the number resets to zero on a new calendar
date (or when there is no previous segment), otherwise increments. -/
def nextNumber (last_start : Option Int) (number : Int) (seg_start : Int) : Int :=
  match last_start with
  | none => 0
  | some ls => if dateOf seg_start ≠ dateOf ls then 0 else number + 1

/-- The emission loop of `ComputeContinuousMeasurements`: for each data
segment, find its nearest dark segment, update the sequence number, and emit a
`MeasurementSet` unless the segment ended less than `max_gap` seconds before
`now` (`datetime.now()` is modelled by the `now` parameter). -/
def ccmLoop (now max_gap : Int) (dark_segments : List (List MeasurementFile)) :
    List (List MeasurementFile) → Option Int → Int → List MeasurementSet
  | [], _, _ => []
  | segment :: rest, last_start, number =>
      let dark_measurements :=
        ClosestDarkSegment segment dark_segments (some (segment.headD default).Type)
      let number' := nextNumber last_start number (segment.headD default).StartDateTime
      let emitted :=
        if now - (segment.getLastD default).EndDateTime ≥ max_gap then
          [MeasurementSet.make dark_measurements segment number']
        else []
      emitted ++ ccmLoop now max_gap dark_segments rest
        (some (segment.headD default).StartDateTime) number'

/-- The same loop without the recency test: every data segment is paired with
the `MeasurementSet` it would produce. This is the wall-clock-free core of the
computation. -/
def ccmAll (max_gap : Int) (dark_segments : List (List MeasurementFile)) :
    List (List MeasurementFile) → Option Int → Int →
      List (List MeasurementFile × MeasurementSet)
  | [], _, _ => []
  | segment :: rest, last_start, number =>
      let dark_measurements :=
        ClosestDarkSegment segment dark_segments (some (segment.headD default).Type)
      let number' := nextNumber last_start number (segment.headD default).StartDateTime
      (segment, MeasurementSet.make dark_measurements segment number') ::
        ccmAll max_gap dark_segments rest
          (some (segment.headD default).StartDateTime) number'

/-- `Lidarchive.ComputeContinuousMeasurements` (`repository.py`), as a function
of the catalog, the identifier lists, the four splitting parameters and the
observed wall-clock time `now`. Returns the computed
`continuous_measurements` list. -/
def ComputeContinuousMeasurements (measurements : List MeasurementFile)
    (dark_identifiers measurement_identifiers : List String)
    (max_gap min_length max_length : Int) (alignment_type : AlignmentType)
    (now : Int) : List MeasurementSet :=
  if measurements.length < 1 then []
  else
    let gapped_dark_segments := ContinuousDarkMeasurements measurements
      dark_identifiers max_gap min_length max_length alignment_type
    let gapped_data_segments := ContinuousDataMeasurements measurements
      dark_identifiers measurement_identifiers max_gap min_length max_length alignment_type
    ccmLoop now max_gap gapped_dark_segments
      (sortSegmentsByStart gapped_data_segments) none 0

/-- All measurement sets the catalog would yield regardless of the clock: the
segments of `ComputeContinuousMeasurements` each paired with their
`MeasurementSet`, before the recency suppression. -/
def AssembleAllSets (measurements : List MeasurementFile)
    (dark_identifiers measurement_identifiers : List String)
    (max_gap min_length max_length : Int) (alignment_type : AlignmentType) :
    List (List MeasurementFile × MeasurementSet) :=
  if measurements.length < 1 then []
  else
    let gapped_dark_segments := ContinuousDarkMeasurements measurements
      dark_identifiers max_gap min_length max_length alignment_type
    let gapped_data_segments := ContinuousDataMeasurements measurements
      dark_identifiers measurement_identifiers max_gap min_length max_length alignment_type
    ccmAll max_gap gapped_dark_segments
      (sortSegmentsByStart gapped_data_segments) none 0

/-- The datalog dictionary keys (`Datalog.Field` in `log.py`). -/
inductive Field where
  | FOLDER
  | MEASUREMENT
  | PROCESS_START
  | RESULT
  | CONVERTED
  | UPLOADED
  | DOWNLOADED
  | WANT_CONVERT
  | WANT_UPLOAD
  | WANT_DOWNLOAD
  | WANT_DEBUG
  | REPROCESS_ENABLED
  | REPLACE_ENABLED
  | WAIT_ENABLED
  | SCC_NETCDF_PATH
  | SYSTEM_ID
  | SCC_MEASUREMENT_ID
  | ALREADY_ON_SCC
  | SCC_VERSION
  | CONFIGURATION_FILE
  | LAST_PROCESSED_DATE
  | CONVERT
  | REPROCESS
  | REPLACE
  | DOWNLOAD
  | WAIT
  | DEBUG
deriving DecidableEq, Inhabited

/-- Values stored in the datalog dictionaries. Python is dynamically typed
here: task fields and configuration entries hold strings, booleans,
timestamps, `None`, or a whole `MeasurementSet`. -/
inductive Value where
  | str (s : String)
  | bool (b : Bool)
  | int (n : Int)
  | none
  | measurement (m : MeasurementSet)
deriving DecidableEq, Inhabited

/-- Python truthiness of a stored value, used by `initialize_task` when it
derives the desired-action flags from configuration entries. -/
def Value.truthy : Value → Bool
  | Value.str s => s ≠ ""
  | Value.bool b => b
  | Value.int n => n ≠ 0
  | Value.none => false
  | Value.measurement _ => true

/-- Configuration keys: the source indexes `self.config` both with plain
strings ("folder") and with `Datalog.Field` enum members. -/
inductive ConfigKey where
  | str (s : String)
  | field (f : Field)
deriving DecidableEq, Inhabited

/-- Dictionary lookup on an insertion-ordered association list
(`dict.__getitem__` / `dict.get`). -/
def dictGet {α β : Type} [DecidableEq α] (k : α) : List (α × β) → Option β
  | [] => Option.none
  | (k', v) :: rest => if k' = k then some v else dictGet k rest

/-- Dictionary update on an insertion-ordered association list: overwrite the
first binding of the key in place, or append a new binding at the end
(`dict.__setitem__`). -/
def dictSet {α β : Type} [DecidableEq α] (k : α) (v : β) : List (α × β) → List (α × β)
  | [] => [(k, v)]
  | (k', v') :: rest =>
      if k' = k then (k, v) :: rest else (k', v') :: dictSet k v rest

/-- The in-memory ledger state (`Datalog` in `log.py`): the tracked tasks and
the global configuration. The swap-file path and CSV path play no role in the
state transitions under study. -/
structure Datalog where
  tasks : List (String × List (Field × Value))
  config : List (ConfigKey × Value)
deriving DecidableEq, Inhabited

/-- `Datalog.reset_tasks`. -/
def Datalog.reset_tasks (log : Datalog) : Datalog :=
  { log with tasks := [] }

/-- `Datalog.reset`: clear the tasks, then the configuration. -/
def Datalog.reset (log : Datalog) : Datalog :=
  { log.reset_tasks with config := [] }

/-- `Datalog.update_task` (`log.py`), restricted to its state effect: create
the task dictionary if the id is new, then set the field. The `save` flag only
controls swap-file output and does not change the in-memory state. -/
def Datalog.update_task (log : Datalog) (task_id : String) (field : Field)
    (value : Value) : Datalog :=
  let task := (dictGet task_id log.tasks).getD []
  { log with tasks := dictSet task_id (dictSet field value task) log.tasks }

/-- `config.get(key, default)` followed by Python truthiness, as used for the
desired-action flags of `initialize_task`. -/
def Datalog.configTruthy (log : Datalog) (k : ConfigKey) (dflt : Bool) : Bool :=
  match dictGet k log.config with
  | some v => v.truthy
  | Option.none => dflt

/-- The field/value pairs that `Datalog.initialize_task` writes into the
(re)created entry, in the exact order of the source's `update_task` calls.
The source interleaves these calls with the computation of the desired-action
flags, but `update_task` never touches `self.config`, so every value is the
one read from the initial configuration. -/
def Datalog.initTaskFields (log : Datalog) (measurement : MeasurementSet)
    (now : Int) : List (Field × Value) :=
  [ (Field.FOLDER, (dictGet (ConfigKey.str "folder") log.config).getD Value.none),
    (Field.MEASUREMENT, Value.measurement measurement),
    (Field.PROCESS_START, Value.int now),
    (Field.RESULT, Value.str ""),
    (Field.CONVERTED, Value.bool false),
    (Field.UPLOADED, Value.bool false),
    (Field.DOWNLOADED, Value.bool false),
    (Field.WANT_CONVERT, Value.bool true),
    (Field.WANT_UPLOAD,
      Value.bool (!(log.configTruthy (ConfigKey.field Field.CONVERT) false))),
    (Field.WANT_DOWNLOAD,
      Value.bool ((!(log.configTruthy (ConfigKey.field Field.CONVERT) false)) &&
        log.configTruthy (ConfigKey.field Field.DOWNLOAD) true)),
    (Field.WANT_DEBUG, Value.bool (log.configTruthy (ConfigKey.field Field.DEBUG) false)),
    (Field.REPROCESS_ENABLED,
      Value.bool (log.configTruthy (ConfigKey.field Field.REPROCESS) false)),
    (Field.REPLACE_ENABLED,
      Value.bool (log.configTruthy (ConfigKey.field Field.REPLACE) false)),
    (Field.WAIT_ENABLED, Value.bool (log.configTruthy (ConfigKey.field Field.WAIT) false)),
    (Field.SCC_NETCDF_PATH, Value.str ""),
    (Field.SYSTEM_ID, Value.none),
    (Field.SCC_MEASUREMENT_ID, Value.none),
    (Field.ALREADY_ON_SCC, Value.bool false),
    (Field.SCC_VERSION, Value.str "") ]

/-- `Datalog.initialize_task` (`log.py`): if the measurement id is already
tracked and no restart is forced, leave the ledger untouched and report false;
otherwise (re)build the entry with the `update_task` calls listed in
`initTaskFields` — completion flags false, desired-action flags derived from
the configuration, fresh start timestamp `now` — and report true. Returns the
new state and the boolean result. -/
def Datalog.initialize_task (log : Datalog) (measurement : MeasurementSet)
    (now : Int) (force_restart : Bool) : Datalog × Bool :=
  let already_exists := (dictGet measurement.Id log.tasks).isSome
  if already_exists = true ∧ force_restart = false then (log, false)
  else
    ((log.initTaskFields measurement now).foldl
      (fun l fv => l.update_task measurement.Id fv.1 fv.2) log, true)

/-- `Datalog.task_info`: field of a tracked task, or `none`. -/
def Datalog.task_info (log : Datalog) (id : String) (field : Field) : Option Value :=
  (dictGet id log.tasks).bind (fun task => dictGet field task)

/-- A snapshot as far as `Datalog.load` can observe it: `Option.none` covers
both a missing and an unreadable (corrupt) swap file — any exception while
opening, unpickling, or indexing the pickled structure — and `some` carries
the recovered `{config, tasks}` pair. -/
def Snapshot : Type :=
  Option (List (ConfigKey × Value) × List (String × List (Field × Value)))

/-- `Datalog.load` (`log.py`): on success, adopt the snapshot's configuration
and tasks and report whether any configuration key was recovered; on any
failure, `reset` the ledger and report false. (When the exception strikes
after `self.config` was already assigned, the `reset` still wipes both maps,
so the net state is the same clean empty state.) -/
def Datalog.load (log : Datalog) (snapshot : Snapshot) : Datalog × Bool :=
  match snapshot with
  | Option.none => (log.reset, false)
  | some (config, tasks) =>
      ({ log with config := config, tasks := tasks }, config.length > 0)

/-! ## Dictionary lemmas -/

theorem dictGet_dictSet_self {α β : Type} [DecidableEq α] (k : α) (v : β)
    (l : List (α × β)) : dictGet k (dictSet k v l) = some v := by
  induction l with
  | nil => simp [dictGet, dictSet]
  | cons hd tl ih =>
      by_cases h : hd.1 = k
      · simp [dictGet, dictSet, h]
      · simp [dictGet, dictSet, h, ih]

theorem dictGet_dictSet_ne {α β : Type} [DecidableEq α] (k k' : α) (v : β)
    (l : List (α × β)) (h : k' ≠ k) : dictGet k (dictSet k' v l) = dictGet k l := by
  induction l with
  | nil => simp [dictGet, dictSet, h]
  | cons hd tl ih =>
      by_cases h2 : hd.1 = k'
      · simp [dictGet, dictSet, h2, h]
      · simp [dictGet, dictSet, h2, ih]

theorem dictSet_dictSet_self {α β : Type} [DecidableEq α] (k : α) (v w : β)
    (l : List (α × β)) : dictSet k v (dictSet k w l) = dictSet k v l := by
  induction l with
  | nil => simp [dictSet]
  | cons hd tl ih =>
      by_cases h : hd.1 = k
      · simp [dictSet, h]
      · simp [dictSet, h, ih]

/-! ## C8: initializing a task twice -/

/-- The association list a fresh task entry holds after the `update_task`
calls of `initialize_task`. -/
def Datalog.newTaskRecord (log : Datalog) (measurement : MeasurementSet)
    (now : Int) : List (Field × Value) :=
  (log.initTaskFields measurement now).foldl (fun acc p => dictSet p.1 p.2 acc) []

theorem foldl_update_task (id : String) (tasks0 : List (String × List (Field × Value)))
    (cfg : List (ConfigKey × Value)) (fvs : List (Field × Value)) :
    ∀ t : List (Field × Value),
      fvs.foldl (fun l p => Datalog.update_task l id p.1 p.2)
        (Datalog.mk (dictSet id t tasks0) cfg) =
      Datalog.mk (dictSet id (fvs.foldl (fun acc p => dictSet p.1 p.2 acc) t) tasks0) cfg := by
  induction fvs with
  | nil => intro t; rfl
  | cons fv fvs ih =>
      intro t
      have hstep :
          Datalog.update_task (Datalog.mk (dictSet id t tasks0) cfg) id fv.1 fv.2 =
            Datalog.mk (dictSet id (dictSet fv.1 fv.2 t) tasks0) cfg := by
        simp [Datalog.update_task, dictGet_dictSet_self, dictSet_dictSet_self]
      simp only [List.foldl_cons, hstep, ih]

theorem foldl_update_task_absent (log : Datalog) (id : String) (fv : Field × Value)
    (rest : List (Field × Value)) (habs : dictGet id log.tasks = Option.none) :
    (fv :: rest).foldl (fun l p => Datalog.update_task l id p.1 p.2) log =
      Datalog.mk
        (dictSet id ((fv :: rest).foldl (fun acc p => dictSet p.1 p.2 acc) []) log.tasks)
        log.config := by
  have hstep : Datalog.update_task log id fv.1 fv.2 =
      Datalog.mk (dictSet id (dictSet fv.1 fv.2 []) log.tasks) log.config := by
    simp [Datalog.update_task, habs]
  simp only [List.foldl_cons, hstep, foldl_update_task]

theorem initialize_task_absent (log : Datalog) (m : MeasurementSet) (now : Int)
    (habs : dictGet m.Id log.tasks = Option.none) :
    log.initialize_task m now false =
      (Datalog.mk (dictSet m.Id (log.newTaskRecord m now) log.tasks) log.config, true) := by
  simp only [Datalog.initialize_task, habs, Option.isSome_none, Bool.false_eq_true,
    false_and, if_false]
  refine congrArg (fun x => (x, true)) ?_
  simp only [Datalog.newTaskRecord, Datalog.initTaskFields]
  exact foldl_update_task_absent log m.Id _ _ habs

/-- C8: for every ledger state not yet tracking the measurement's identity,
`initialize_task` with `force_restart = false` creates the entry once — the
first call returns true and stores false for all three completion flags
(converted, uploaded, downloaded) — and a second call for the same identity
returns false and is a no-op on the ledger state. -/
theorem initialize_task_second_call_noop (log : Datalog) (m : MeasurementSet)
    (now now2 : Int) (habs : dictGet m.Id log.tasks = Option.none) :
    (log.initialize_task m now false).2 = true ∧
    (log.initialize_task m now false).1.task_info m.Id Field.CONVERTED =
      some (Value.bool false) ∧
    (log.initialize_task m now false).1.task_info m.Id Field.UPLOADED =
      some (Value.bool false) ∧
    (log.initialize_task m now false).1.task_info m.Id Field.DOWNLOADED =
      some (Value.bool false) ∧
    (log.initialize_task m now false).1.initialize_task m now2 false =
      ((log.initialize_task m now false).1, false) := by
  rw [initialize_task_absent log m now habs]
  refine ⟨rfl, ?_, ?_, ?_, ?_⟩
  · simp [Datalog.task_info, dictGet_dictSet_self, Datalog.newTaskRecord,
      Datalog.initTaskFields, dictSet, dictGet]
  · simp [Datalog.task_info, dictGet_dictSet_self, Datalog.newTaskRecord,
      Datalog.initTaskFields, dictSet, dictGet]
  · simp [Datalog.task_info, dictGet_dictSet_self, Datalog.newTaskRecord,
      Datalog.initTaskFields, dictSet, dictGet]
  · simp [Datalog.initialize_task, dictGet_dictSet_self]

/-- Concrete instantiation of `initialize_task_second_call_noop`: an empty
ledger and a one-file measurement set. -/
theorem initialize_task_second_call_noop_witness :
    ((Datalog.mk [] []).initialize_task
        (MeasurementSet.make [] [MeasurementFile.mk "/d" "f" (FileInfo.mk 0 100 "SITE" [] "") FileType.LICEL_V1] 0)
        5 false).2 = true ∧
    ((Datalog.mk [] []).initialize_task
        (MeasurementSet.make [] [MeasurementFile.mk "/d" "f" (FileInfo.mk 0 100 "SITE" [] "") FileType.LICEL_V1] 0)
        5 false).1.task_info
      (MeasurementSet.make [] [MeasurementFile.mk "/d" "f" (FileInfo.mk 0 100 "SITE" [] "") FileType.LICEL_V1] 0).Id
      Field.CONVERTED = some (Value.bool false) ∧
    ((Datalog.mk [] []).initialize_task
        (MeasurementSet.make [] [MeasurementFile.mk "/d" "f" (FileInfo.mk 0 100 "SITE" [] "") FileType.LICEL_V1] 0)
        5 false).1.task_info
      (MeasurementSet.make [] [MeasurementFile.mk "/d" "f" (FileInfo.mk 0 100 "SITE" [] "") FileType.LICEL_V1] 0).Id
      Field.UPLOADED = some (Value.bool false) ∧
    ((Datalog.mk [] []).initialize_task
        (MeasurementSet.make [] [MeasurementFile.mk "/d" "f" (FileInfo.mk 0 100 "SITE" [] "") FileType.LICEL_V1] 0)
        5 false).1.task_info
      (MeasurementSet.make [] [MeasurementFile.mk "/d" "f" (FileInfo.mk 0 100 "SITE" [] "") FileType.LICEL_V1] 0).Id
      Field.DOWNLOADED = some (Value.bool false) ∧
    ((Datalog.mk [] []).initialize_task
        (MeasurementSet.make [] [MeasurementFile.mk "/d" "f" (FileInfo.mk 0 100 "SITE" [] "") FileType.LICEL_V1] 0)
        5 false).1.initialize_task
      (MeasurementSet.make [] [MeasurementFile.mk "/d" "f" (FileInfo.mk 0 100 "SITE" [] "") FileType.LICEL_V1] 0)
      6 false =
    (((Datalog.mk [] []).initialize_task
        (MeasurementSet.make [] [MeasurementFile.mk "/d" "f" (FileInfo.mk 0 100 "SITE" [] "") FileType.LICEL_V1] 0)
        5 false).1, false) :=
  initialize_task_second_call_noop (Datalog.mk [] [])
    (MeasurementSet.make [] [MeasurementFile.mk "/d" "f" (FileInfo.mk 0 100 "SITE" [] "") FileType.LICEL_V1] 0)
    5 6 (by decide)

/-! ## C9: loading the snapshot -/

/-- C9: `load` reports true exactly when a snapshot was read and at least one
configuration key was recovered, and a missing or corrupt snapshot resets the
ledger to the clean empty state (no tasks, no configuration) and reports false
instead of propagating the error. -/
theorem load_true_iff_config_recovered (log : Datalog) (snapshot : Snapshot) :
    ((log.load snapshot).2 = true ↔
      ∃ config tasks, snapshot = some (config, tasks) ∧ 0 < config.length) ∧
    (snapshot = Option.none →
      (log.load snapshot).1 = Datalog.mk [] [] ∧ (log.load snapshot).2 = false) := by
  match snapshot with
  | Option.none =>
      simp [Datalog.load, Datalog.reset, Datalog.reset_tasks]
  | some (config, tasks) =>
      refine ⟨⟨fun h => ⟨config, tasks, rfl, ?_⟩, ?_⟩, fun h => by cases h⟩
      · simpa [Datalog.load] using h
      · rintro ⟨c, t, heq, hc⟩
        have h2 : config = c ∧ tasks = t := by
          injection heq with h3
          exact ⟨congrArg Prod.fst h3, congrArg Prod.snd h3⟩
        simp [Datalog.load, h2.1, hc]

/-- Concrete instantiation of `load_true_iff_config_recovered`: loading a
missing snapshot over a dirty ledger resets it and returns false. -/
theorem load_true_iff_config_recovered_witness :
    ((Datalog.mk [("t", [(Field.CONVERTED, Value.bool true)])]
        [(ConfigKey.str "k", Value.bool true)]).load Option.none).1 = Datalog.mk [] [] ∧
    ((Datalog.mk [("t", [(Field.CONVERTED, Value.bool true)])]
        [(ConfigKey.str "k", Value.bool true)]).load Option.none).2 = false :=
  (load_true_iff_config_recovered
    (Datalog.mk [("t", [(Field.CONVERTED, Value.bool true)])]
      [(ConfigKey.str "k", Value.bool true)]) Option.none).2 rfl

/-! ## Concrete example files used as witnesses and counterexamples -/

def exChannel : ChannelInfo :=
  ChannelInfo.mk "BT0" 75 532 "L1" 12 true true 600

def mkFile (folder filename : String) (s e : Int) (site : String) (ty : FileType) :
    MeasurementFile :=
  MeasurementFile.mk folder filename (FileInfo.mk s e site [exChannel] "") ty

def fileTypeV1 : MeasurementFile := mkFile "/data" "a1" 0 100 "ST" FileType.LICEL_V1

def fileTypeV2 : MeasurementFile := mkFile "/data" "a2" 150 3600 "ST" FileType.LICEL_V2

def darkEarly : MeasurementFile := mkFile "/data" "d1" 0 50 "Dark" FileType.LICEL_V1

def darkOverlap : MeasurementFile := mkFile "/data" "d2" 150 250 "Dark" FileType.LICEL_V1

def dataChunkFile : MeasurementFile := mkFile "/data" "m1" 100 200 "ST" FileType.LICEL_V1

def shortLead : MeasurementFile := mkFile "/data" "s1" 0 10 "ST" FileType.LICEL_V1

def farTail : MeasurementFile := mkFile "/data" "s2" 500 1000 "ST" FileType.LICEL_V1

/-! ## C10: deduplication in the MeasurementSet constructor -/

/-- Specification form of the deduplication: keep the first file carrying each
distinct start time, in input order. -/
def firstPerStart (l : List MeasurementFile) : List MeasurementFile :=
  match l with
  | [] => []
  | f :: fs =>
      f :: firstPerStart (fs.filter (fun g => g.StartDateTime != f.StartDateTime))
termination_by l.length
decreasing_by
  simp only [List.length_cons]
  exact Nat.lt_succ_of_le (List.length_filter_le _ _)

theorem dedupByStartAux_eq_firstPerStart (fs : List MeasurementFile) :
    ∀ seen : List Int,
      dedupByStartAux seen fs =
        firstPerStart (fs.filter (fun g => !(seen.contains g.StartDateTime))) := by
  induction fs with
  | nil => intro seen; simp [dedupByStartAux, firstPerStart]
  | cons f fs ih =>
      intro seen
      cases hb : seen.contains f.StartDateTime
      · simp only [dedupByStartAux, hb, Bool.false_eq_true, if_false, List.filter_cons,
          Bool.not_false, eq_self_iff_true, if_true]
        rw [firstPerStart, ih (f.StartDateTime :: seen)]
        congr 1
        rw [List.filter_filter]
        refine congrArg firstPerStart (List.filter_congr ?_)
        intro g _
        simp only [List.contains_cons, Bool.not_or, bne]
      · simp only [dedupByStartAux, hb, if_true, List.filter_cons, Bool.not_true,
          Bool.false_eq_true, if_false]
        exact ih seen

theorem firstPerStart_sublist (l : List MeasurementFile) :
    List.Sublist (firstPerStart l) l := by
  induction l using firstPerStart.induct with
  | case1 => simp [firstPerStart]
  | case2 f fs ih =>
      rw [firstPerStart]
      exact List.Sublist.cons₂ f (ih.trans (List.filter_sublist fs))

theorem firstPerStart_pairwise (l : List MeasurementFile) :
    List.Pairwise (fun a b => a.StartDateTime ≠ b.StartDateTime) (firstPerStart l) := by
  induction l using firstPerStart.induct with
  | case1 => simp [firstPerStart]
  | case2 f fs ih =>
      rw [firstPerStart]
      refine List.Pairwise.cons ?_ ih
      intro y hy
      have hmem : y ∈ fs.filter (fun g => g.StartDateTime != f.StartDateTime) :=
        (firstPerStart_sublist _).mem hy
      have := List.of_mem_filter hmem
      simp only [bne_iff_ne, ne_eq] at this
      exact fun h => this h.symm

/-- C10: the `MeasurementSet` constructor deduplicates the data files by start
time exactly as it does the dark files: both stored lists keep only the first
file carrying each distinct start time, in input order, and consequently
`DataFiles()` never contains two files with equal start times. -/
theorem measurementSet_dedups_by_start_time (dark data : List MeasurementFile)
    (number : Int) :
    (MeasurementSet.make dark data number).DataFiles = firstPerStart data ∧
    (MeasurementSet.make dark data number).DarkFiles = firstPerStart dark ∧
    List.Sublist ((MeasurementSet.make dark data number).DataFiles) data ∧
    List.Pairwise (fun a b => a.StartDateTime ≠ b.StartDateTime)
      ((MeasurementSet.make dark data number).DataFiles) := by
  have hdata : (MeasurementSet.make dark data number).DataFiles = firstPerStart data := by
    simp only [MeasurementSet.make, MeasurementSet.DataFiles, dedupByStart,
      dedupByStartAux_eq_firstPerStart]
    congr 1
    simp
  have hdark : (MeasurementSet.make dark data number).DarkFiles = firstPerStart dark := by
    simp only [MeasurementSet.make, MeasurementSet.DarkFiles, dedupByStart,
      dedupByStartAux_eq_firstPerStart]
    congr 1
    simp
  refine ⟨hdata, hdark, ?_, ?_⟩
  · rw [hdata]; exact firstPerStart_sublist data
  · rw [hdata]; exact firstPerStart_pairwise data

/-! ## C1: SplitMeasurements with all partition switches disabled -/

/-- C1: with `same_type = false` the scan list of `SplitMeasurements` is never
populated (the per-type partition block is skipped entirely and
`split_measurements` keeps its initial empty value), so the function returns no
chunk at all — every input file is lost, contradicting the claimed exact
reproduction of the input. -/
theorem splitMeasurements_without_same_type_loses_all_files
    (measurements : List MeasurementFile) (max_gap min_length max_length : Int)
    (alignment_type : AlignmentType) (same_location same_system same_folder : Bool) :
    SplitMeasurements measurements max_gap min_length max_length alignment_type
      same_location false same_system same_folder = [] := by
  by_cases h : measurements.length < 1 <;> simp [SplitMeasurements, h]

/-! ## C2: same_type does not actually partition by file type -/

/-- C2: the `for … else` in `SplitMeasurements` always rebinds
`split_measurements` to the folder partition, discarding the per-type
partition, so with `same_type = true` a single output chunk can contain a
LICEL V1 file and a LICEL V2 file. -/
theorem splitMeasurements_chunk_mixes_file_types :
    SplitMeasurements [fileTypeV1, fileTypeV2] 300 50 10000 AlignmentType.NONE
      true true true true = [[fileTypeV1, fileTypeV2]] ∧
    fileTypeV1.Type ≠ fileTypeV2.Type := by
  constructor
  · rfl
  · decide

/-! ## C3: ClosestDarkSegment ignores the dark segment's actual times -/

/-- C3: because `dark_start` and `dark_end` are read from the data segment
itself, the overlap branch fires for every eligible candidate, and the search
returns the first channel-compatible dark segment in list order — here the
strictly earlier `darkEarly` — even though the eligible `darkOverlap` overlaps
the data chunk in time. -/
theorem closestDarkSegment_returns_first_eligible :
    ClosestDarkSegment [dataChunkFile] [[darkEarly], [darkOverlap]] Option.none =
      [darkEarly] ∧
    darkEarly.EndDateTime < dataChunkFile.StartDateTime ∧
    darkOverlap.StartDateTime ≤ dataChunkFile.EndDateTime ∧
    dataChunkFile.StartDateTime ≤ darkOverlap.EndDateTime ∧
    darkOverlap.HasSameChannelsAs dataChunkFile = true := by
  decide

/-! ## C5: the glue condition of SplitByLength -/

/-- C5 counterexample: with `min_length = 600`, at the step reaching `farTail`
the remaining span to the overall end (1000 - 500 = 500) is below
`min_length`, the current segment `[shortLead]` has own span 10 ≤ 600, and yet
the remaining files are glued onto it: the output is one merged chunk, not the
no-glue outcome the claim predicts for a short current segment. -/
theorem splitByLength_glues_despite_short_segment :
    SplitByLength [shortLead, farTail] 600 400 SplitStart.START true =
      [[shortLead, farTail]] ∧
    shortLead.EndDateTime - shortLead.StartDateTime ≤ 600 ∧
    (1000 : Int) - farTail.StartDateTime < 600 := by
  decide

/-- C5 (amended): in the forward scan of `SplitByLength` with gluing allowed,
the remaining files are appended to the current segment and scanning stops
exactly when the remaining span to the overall end (`last_end` minus the
current file's start) drops below `min_length` while the span from the current
segment's start to the overall end (`last_end - segment_start`, not the
segment's own last-file end) exceeds `min_length`; in every other case the
step either closes the segment on `max_length` or just appends the file. -/
theorem splitByLength_glue_condition
    (min_length max_length last_end segment_start : Int)
    (segment rest : List MeasurementFile) (cur : MeasurementFile) :
    (last_end - cur.StartDateTime < min_length ∧
        last_end - segment_start > min_length →
      splitByLengthAux min_length max_length last_end true segment_start segment
        (cur :: rest) = [segment ++ cur :: rest]) ∧
    (¬(last_end - cur.StartDateTime < min_length ∧
        last_end - segment_start > min_length) →
      splitByLengthAux min_length max_length last_end true segment_start segment
        (cur :: rest) =
        if cur.EndDateTime - segment_start > max_length then
          segment :: splitByLengthAux min_length max_length last_end true
            cur.StartDateTime [cur] rest
        else
          splitByLengthAux min_length max_length last_end true segment_start
            (segment ++ [cur]) rest) := by
  have hstep : splitByLengthAux min_length max_length last_end true segment_start
      segment (cur :: rest) =
      if last_end - cur.StartDateTime < min_length ∧
          last_end - segment_start > min_length ∧ (true : Bool) = true then
        [segment ++ cur :: rest]
      else if cur.EndDateTime - segment_start > max_length then
        segment :: splitByLengthAux min_length max_length last_end true
          cur.StartDateTime [cur] rest
      else
        splitByLengthAux min_length max_length last_end true segment_start
          (segment ++ [cur]) rest := rfl
  constructor
  · intro h
    rw [hstep, if_pos ⟨h.1, h.2, rfl⟩]
  · intro h
    have h2 : ¬(last_end - cur.StartDateTime < min_length ∧
        last_end - segment_start > min_length ∧ (true : Bool) = true) := by
      intro hc
      exact h ⟨hc.1, hc.2.1⟩
    rw [hstep, if_neg h2]

/-- Concrete instantiation of `splitByLength_glue_condition`: the glue step
fires on `[shortLead]` when `farTail` is reached. -/
theorem splitByLength_glue_condition_witness :
    splitByLengthAux 600 400 1000 true 0 [shortLead] [farTail] =
      [[shortLead] ++ farTail :: []] :=
  (splitByLength_glue_condition 600 400 1000 0 [shortLead] [] farTail).1 (by decide)

/-! ## C4: the gap comparison of the scan is strict -/

theorem gapScanAux_head_eq (g : Int) (rest : List MeasurementFile) :
    ∀ (prev lastm : MeasurementFile) (cset : List MeasurementFile), cset ≠ [] →
      ∃ r out, gapScanAux g false false prev lastm cset rest = r :: out ∧
        r.head? = cset.head? := by
  induction rest with
  | nil =>
      intro prev lastm cset hne
      have hlen : cset.length > 0 := List.length_pos.mpr hne
      refine ⟨cset, [], ?_, rfl⟩
      simp only [gapScanAux, if_pos hlen]
  | cons cur rest ih =>
      intro prev lastm cset hne
      simp only [gapScanAux, Bool.false_eq_true, false_and, or_false]
      by_cases hgap : cur.StartDateTime - prev.EndDateTime > g
      · rw [if_pos hgap]
        exact ⟨cset, _, rfl, rfl⟩
      · rw [if_neg hgap]
        obtain ⟨r, out, hout, hhead⟩ := ih cur lastm (cset ++ [cur]) (by simp)
        refine ⟨r, out, hout, ?_⟩
        rw [hhead]
        match cset, hne with
        | c :: cs, _ => rfl

theorem gapScanAux_noflag_props (g : Int) (rest : List MeasurementFile) :
    ∀ (prev lastm : MeasurementFile) (cset : List MeasurementFile),
      cset ≠ [] → cset.getLast? = some prev →
      List.Chain' (fun a b => b.StartDateTime - a.EndDateTime ≤ g) cset →
      List.flatten (gapScanAux g false false prev lastm cset rest) = cset ++ rest ∧
      (∀ run ∈ gapScanAux g false false prev lastm cset rest,
        run ≠ [] ∧ List.Chain' (fun a b => b.StartDateTime - a.EndDateTime ≤ g) run) ∧
      List.Chain'
        (fun r s => ∀ x ∈ r.getLast?, ∀ y ∈ s.head?, y.StartDateTime - x.EndDateTime > g)
        (gapScanAux g false false prev lastm cset rest) := by
  induction rest with
  | nil =>
      intro prev lastm cset hne hlast hchain
      have hlen : cset.length > 0 := List.length_pos.mpr hne
      simp only [gapScanAux, if_pos hlen]
      refine ⟨by simp, ?_, by simp⟩
      intro run hr
      rw [List.mem_singleton] at hr
      subst hr
      exact ⟨hne, hchain⟩
  | cons cur rest ih =>
      intro prev lastm cset hne hlast hchain
      simp only [gapScanAux, Bool.false_eq_true, false_and, or_false]
      by_cases hgap : cur.StartDateTime - prev.EndDateTime > g
      · rw [if_pos hgap]
        obtain ⟨IH1, IH2, IH3⟩ :=
          ih cur cur [cur] (by simp) (by simp) (List.chain'_singleton cur)
        obtain ⟨r, out, hout, hhead⟩ := gapScanAux_head_eq g rest cur cur [cur] (by simp)
        refine ⟨?_, ?_, ?_⟩
        · rw [List.flatten_cons, IH1]
          simp
        · intro run hr
          rcases List.mem_cons.mp hr with hr | hr
          · subst hr; exact ⟨hne, hchain⟩
          · exact IH2 run hr
        · rw [List.chain'_cons']
          refine ⟨?_, IH3⟩
          intro s hs
          rw [hout] at hs
          simp only [List.head?_cons, Option.mem_def, Option.some.injEq] at hs
          subst hs
          intro x hx y hy
          rw [hlast] at hx
          simp only [Option.mem_def, Option.some.injEq] at hx
          subst hx
          rw [hhead] at hy
          simp only [List.head?_cons, Option.mem_def, Option.some.injEq] at hy
          subst hy
          exact hgap
      · rw [if_neg hgap]
        have hgap2 : cur.StartDateTime - prev.EndDateTime ≤ g := not_lt.mp hgap
        have hlast2 : (cset ++ [cur]).getLast? = some cur := by simp
        have hchain2 :
            List.Chain' (fun a b => b.StartDateTime - a.EndDateTime ≤ g) (cset ++ [cur]) := by
          rw [List.chain'_append]
          refine ⟨hchain, List.chain'_singleton cur, ?_⟩
          intro x hx y hy
          rw [hlast] at hx
          simp only [Option.mem_def, Option.some.injEq] at hx
          subst hx
          simp only [List.head?_cons, Option.mem_def, Option.some.injEq] at hy
          subst hy
          exact hgap2
        obtain ⟨IH1, IH2, IH3⟩ := ih cur lastm (cset ++ [cur]) (by simp) hlast2 hchain2
        refine ⟨?_, IH2, IH3⟩
        rw [IH1]
        simp

/-- C4: in the gap scan of `SplitMeasurements` with the location and system
triggers disabled, (i) the scan phase of `SplitMeasurements` is exactly
`gapScan` applied per partition, (ii) the runs concatenate back to the input,
(iii) any two consecutive files inside one run satisfy
`start - previous end ≤ max_gap` (so a gap of exactly `max_gap` does not
split), and (iv) at every boundary between consecutive runs the gap strictly
exceeds `max_gap` (so a gap of `max_gap + 1` starts a new run): the comparison
is strict greater-than. -/
theorem gapScan_strict_gap_boundaries (g min_length max_length : Int)
    (alignment_type : AlignmentType) (ms : List MeasurementFile) :
    SplitMeasurements ms g min_length max_length alignment_type false true false false =
      ((gapScan g false false ms).map
        (fun s => SplitByTime s min_length max_length alignment_type)).flatten ∧
    List.flatten (gapScan g false false ms) = ms ∧
    (∀ run ∈ gapScan g false false ms,
      run ≠ [] ∧ List.Chain' (fun a b => b.StartDateTime - a.EndDateTime ≤ g) run) ∧
    List.Chain'
      (fun r s => ∀ x ∈ r.getLast?, ∀ y ∈ s.head?, y.StartDateTime - x.EndDateTime > g)
      (gapScan g false false ms) := by
  match ms with
  | [] =>
      refine ⟨?_, by simp [gapScan], by simp [gapScan], by simp [gapScan]⟩
      simp [SplitMeasurements, gapScan]
  | m :: rest =>
      obtain ⟨H1, H2, H3⟩ :=
        gapScanAux_noflag_props g rest m m [m] (by simp) (by simp)
          (List.chain'_singleton m)
      refine ⟨?_, H1, H2, H3⟩
      simp only [SplitMeasurements, gapScan]
      simp [gapScan]

/-- Concrete instantiation of `gapScan_strict_gap_boundaries`: with
`max_gap = 300`, files ending at 100 and starting at 400 (gap exactly 300)
stay in one run, while the file starting at 801 (gap 301) opens a new run. -/
theorem gapScan_strict_gap_boundaries_witness :
    gapScan 300 false false
      [mkFile "/data" "w1" 0 100 "ST" FileType.LICEL_V1,
       mkFile "/data" "w2" 400 500 "ST" FileType.LICEL_V1,
       mkFile "/data" "w3" 801 900 "ST" FileType.LICEL_V1] =
      [[mkFile "/data" "w1" 0 100 "ST" FileType.LICEL_V1,
        mkFile "/data" "w2" 400 500 "ST" FileType.LICEL_V1],
       [mkFile "/data" "w3" 801 900 "ST" FileType.LICEL_V1]] ∧
    ([mkFile "/data" "w1" 0 100 "ST" FileType.LICEL_V1,
      mkFile "/data" "w2" 400 500 "ST" FileType.LICEL_V1] ≠ [] ∧
      List.Chain' (fun a b => b.StartDateTime - a.EndDateTime ≤ 300)
        [mkFile "/data" "w1" 0 100 "ST" FileType.LICEL_V1,
         mkFile "/data" "w2" 400 500 "ST" FileType.LICEL_V1]) ∧
    List.flatten (gapScan 300 false false
      [mkFile "/data" "w1" 0 100 "ST" FileType.LICEL_V1,
       mkFile "/data" "w2" 400 500 "ST" FileType.LICEL_V1,
       mkFile "/data" "w3" 801 900 "ST" FileType.LICEL_V1]) =
      [mkFile "/data" "w1" 0 100 "ST" FileType.LICEL_V1,
       mkFile "/data" "w2" 400 500 "ST" FileType.LICEL_V1,
       mkFile "/data" "w3" 801 900 "ST" FileType.LICEL_V1] :=
  ⟨by decide,
   (gapScan_strict_gap_boundaries 300 1 10000 AlignmentType.NONE
      [mkFile "/data" "w1" 0 100 "ST" FileType.LICEL_V1,
       mkFile "/data" "w2" 400 500 "ST" FileType.LICEL_V1,
       mkFile "/data" "w3" 801 900 "ST" FileType.LICEL_V1]).2.2.1
     [mkFile "/data" "w1" 0 100 "ST" FileType.LICEL_V1,
      mkFile "/data" "w2" 400 500 "ST" FileType.LICEL_V1] (by decide),
   (gapScan_strict_gap_boundaries 300 1 10000 AlignmentType.NONE
      [mkFile "/data" "w1" 0 100 "ST" FileType.LICEL_V1,
       mkFile "/data" "w2" 400 500 "ST" FileType.LICEL_V1,
       mkFile "/data" "w3" 801 900 "ST" FileType.LICEL_V1]).2.1⟩

/-! ## C6 and C7: recency suppression and clock-independence -/

theorem ccmLoop_eq_filter (now g : Int) (darks : List (List MeasurementFile)) :
    ∀ (segs : List (List MeasurementFile)) (last_start : Option Int) (number : Int),
      ccmLoop now g darks segs last_start number =
        ((ccmAll g darks segs last_start number).filter
          (fun p => decide (now - (p.1.getLastD default).EndDateTime ≥ g))).map
          Prod.snd := by
  intro segs
  induction segs with
  | nil => intro ls n; rfl
  | cons seg rest ih =>
      intro ls n
      simp only [ccmLoop, ccmAll, List.filter_cons, ih]
      by_cases h : g ≤ now - ((seg.getLast?).getD default).EndDateTime
      · simp [List.getLastD_eq_getLast?, h]
      · simp [List.getLastD_eq_getLast?, h]

theorem computeContinuousMeasurements_eq_filter (measurements : List MeasurementFile)
    (dark_identifiers measurement_identifiers : List String)
    (max_gap min_length max_length : Int) (alignment_type : AlignmentType) (now : Int) :
    ComputeContinuousMeasurements measurements dark_identifiers measurement_identifiers
      max_gap min_length max_length alignment_type now =
    ((AssembleAllSets measurements dark_identifiers measurement_identifiers
        max_gap min_length max_length alignment_type).filter
      (fun p => decide (now - (p.1.getLastD default).EndDateTime ≥ max_gap))).map
      Prod.snd := by
  by_cases h : measurements.length < 1
  · simp [ComputeContinuousMeasurements, AssembleAllSets, h]
  · simp only [ComputeContinuousMeasurements, AssembleAllSets, h, if_false]
    exact ccmLoop_eq_filter now max_gap _ _ none 0

/-- C7: the continuous-measurement computation factors through the
wall-clock-free list `AssembleAllSets` — the numbered measurement sets
obtained from the sorted data segments and their matched dark segments — with
`now` entering only through the final recency filter. Hence two runs over an
unchanged catalog with identical parameters produce identical measurement-set
lists whenever they observe the same `now`. -/
theorem computeContinuous_deterministic (measurements : List MeasurementFile)
    (dark_identifiers measurement_identifiers : List String)
    (max_gap min_length max_length : Int) (alignment_type : AlignmentType) (now : Int) :
    ComputeContinuousMeasurements measurements dark_identifiers measurement_identifiers
      max_gap min_length max_length alignment_type now =
    ((AssembleAllSets measurements dark_identifiers measurement_identifiers
        max_gap min_length max_length alignment_type).filter
      (fun p => decide (now - (p.1.getLastD default).EndDateTime ≥ max_gap))).map
      Prod.snd :=
  computeContinuousMeasurements_eq_filter measurements dark_identifiers
    measurement_identifiers max_gap min_length max_length alignment_type now

/-- C6: every measurement set emitted by `ComputeContinuousMeasurements` comes
from a data segment whose last file ended at least `max_gap` seconds before
`now` (no run ending less than `max_gap` ago is ever added), and a segment
whose last file ended exactly `max_gap` seconds ago is emitted. -/
theorem computeContinuous_recency_boundary (measurements : List MeasurementFile)
    (dark_identifiers measurement_identifiers : List String)
    (max_gap min_length max_length : Int) (alignment_type : AlignmentType) (now : Int) :
    (∀ s ∈ ComputeContinuousMeasurements measurements dark_identifiers
        measurement_identifiers max_gap min_length max_length alignment_type now,
      ∃ p ∈ AssembleAllSets measurements dark_identifiers measurement_identifiers
          max_gap min_length max_length alignment_type,
        p.2 = s ∧ max_gap ≤ now - (p.1.getLastD default).EndDateTime) ∧
    (∀ p ∈ AssembleAllSets measurements dark_identifiers measurement_identifiers
        max_gap min_length max_length alignment_type,
      now - (p.1.getLastD default).EndDateTime = max_gap →
        p.2 ∈ ComputeContinuousMeasurements measurements dark_identifiers
          measurement_identifiers max_gap min_length max_length alignment_type now) := by
  constructor
  · intro s hs
    rw [computeContinuousMeasurements_eq_filter] at hs
    obtain ⟨p, hp, hps⟩ := List.mem_map.mp hs
    have hmem := List.mem_filter.mp hp
    exact ⟨p, hmem.1, hps, of_decide_eq_true hmem.2⟩
  · intro p hp heq
    rw [computeContinuousMeasurements_eq_filter]
    refine List.mem_map.mpr ⟨p, List.mem_filter.mpr ⟨hp, ?_⟩, rfl⟩
    rw [decide_eq_true_eq]
    exact le_of_eq heq.symm

/-- Concrete instantiation of `computeContinuous_recency_boundary`: a
one-file catalog whose single run ends exactly `max_gap = 300` seconds before
`now = 400` is emitted. -/
theorem computeContinuous_recency_boundary_witness :
    MeasurementSet.make [] [mkFile "/data" "c1" 0 100 "ST" FileType.LICEL_V1] 0 ∈
      ComputeContinuousMeasurements [mkFile "/data" "c1" 0 100 "ST" FileType.LICEL_V1]
        ["Dark"] ["ST"] 300 50 10000 AlignmentType.NONE 400 ∧
    (∃ p ∈ AssembleAllSets [mkFile "/data" "c1" 0 100 "ST" FileType.LICEL_V1]
        ["Dark"] ["ST"] 300 50 10000 AlignmentType.NONE,
      p.2 = MeasurementSet.make [] [mkFile "/data" "c1" 0 100 "ST" FileType.LICEL_V1] 0 ∧
      300 ≤ 400 - ((p.1.getLastD default).EndDateTime)) :=
  ⟨(computeContinuous_recency_boundary
      [mkFile "/data" "c1" 0 100 "ST" FileType.LICEL_V1] ["Dark"] ["ST"]
      300 50 10000 AlignmentType.NONE 400).2
      ([mkFile "/data" "c1" 0 100 "ST" FileType.LICEL_V1],
        MeasurementSet.make [] [mkFile "/data" "c1" 0 100 "ST" FileType.LICEL_V1] 0)
      (by decide) (by decide),
   (computeContinuous_recency_boundary
      [mkFile "/data" "c1" 0 100 "ST" FileType.LICEL_V1] ["Dark"] ["ST"]
      300 50 10000 AlignmentType.NONE 400).1
      (MeasurementSet.make [] [mkFile "/data" "c1" 0 100 "ST" FileType.LICEL_V1] 0)
      (by decide)⟩

end Obiwan
